import Mathlib

/-!
# AutoStack Manager — verification of the consistency / notification pipeline

Shallow embedding of the backend of AutoStack Manager:

* `backend/common/models/index.js` — entity schemas (Component, Vulnerability,
  Service, Notification, Report);
* `backend/common/utils/dataAccessObjects.js` — the DAO layer
  (`addComponent` with `$addToSet` semantics, `markAllAsRead` with
  `updateMany`, plain `create` inserts);
* `backend/services/stack-scanner/stackScannerService.js` — `POST /api/scan`;
* the version-checker service (`POST /api/check-updates`,
  `POST /api/check-all-updates`, `isNewerVersion`, `incrementVersion`,
  `simulateVersionCheck`);
* `backend/services/report-generator/reportGeneratorService.js` —
  `POST /api/generate` and `generateRecommendations`.

The document store is modelled as a `Store` holding lists of records; Mongo
object ids are modelled as natural numbers (Mongo guarantees `_id` is unique
per collection, so id-targeted updates are modelled as a map over the records
with the matching id).  Timestamps are naturals passed in explicitly.
-/

namespace AutoStack

/-- Vulnerability severities, `models/index.js` `VulnerabilitySchema.severity`. -/
inductive Severity
  | critical | high | medium | low | info
deriving DecidableEq, Repr

/-- Vulnerability lifecycle states, `VulnerabilitySchema.status`
    (`open` is a Lean keyword, rendered `vopen`). -/
inductive VulnStatus
  | vopen | fixed | mitigated | falsePositive | wontFix
deriving DecidableEq, Repr

/-- Service status, `ServiceSchema.status`. -/
inductive SStatus
  | secure | vulnerable | outdated | unknown
deriving DecidableEq, Repr

/-- A `Component` document (fields relevant to the pipeline). -/
structure Component where
  id : Nat
  name : String
  version : String
  ctype : String
  latestVersion : Option String
  updateAvailable : Bool
  lastChecked : Nat
deriving DecidableEq, Repr

/-- A `Vulnerability` document (fields relevant to the pipeline). -/
structure Vulnerability where
  id : Nat
  severity : Severity
  status : VulnStatus
deriving DecidableEq, Repr

/-- One entry of `ServiceSchema.vulnerabilities`: a `(component ref, details ref)`
    pair; `details` is an `ObjectId` reference that `populate` resolves, so a
    dangling reference behaves like `null`. -/
structure VulnAssoc where
  component : Nat
  details : Option Nat
deriving DecidableEq, Repr

/-- A `Service` document. -/
structure Service where
  id : Nat
  name : String
  components : List Nat
  vulnerabilities : List VulnAssoc
  status : SStatus
  lastScan : Option Nat
deriving DecidableEq, Repr

/-- A `Notification` document. -/
structure Notification where
  id : Nat
  title : String
  message : String
  ntype : String
  severity : String
  service : Option Nat
  recipients : List Nat
  read : Bool
  createdAt : Nat
  updatedAt : Nat
deriving DecidableEq, Repr

/-- The `summary` sub-document of a `Report` (`ReportSchema.summary`). -/
structure Summary where
  totalServices : Nat
  secureServices : Nat
  vulnerableServices : Nat
  outdatedServices : Nat
  criticalVulnerabilities : Nat
  highVulnerabilities : Nat
  mediumVulnerabilities : Nat
  lowVulnerabilities : Nat
deriving DecidableEq, Repr

/-- A `Report` document. -/
structure Report where
  title : String
  services : List Nat
  summary : Summary
  format : String
  recommendations : List String
  generatedBy : Nat
  filePath : String
deriving DecidableEq, Repr

/-- The document store: one list per collection plus a fresh-id counter. -/
structure Store where
  components : List Component
  services : List Service
  vulnerabilities : List Vulnerability
  notifications : List Notification
  reports : List Report
  nextId : Nat
deriving DecidableEq, Repr

/-! ## Version comparison (`isNewerVersion`, version-checker service)

`isNewerVersion(currentVersion, latestVersion)` in JS:

```js
const current = currentVersion.split('.').map(Number);
const latest  = latestVersion.split('.').map(Number);
for (let i = 0; i < Math.max(current.length, latest.length); i++) {
  const currentPart = current[i] || 0;
  const latestPart  = latest[i] || 0;
  if (latestPart > currentPart) return true;
  else if (latestPart < currentPart) return false;
}
return false;
```

`Number(seg)` yields `NaN` on a non-numeric segment and `x || 0` coerces
`NaN` (and a missing index) to `0`.  On a numeric segment `Number` yields an
IEEE-754 double: the exact integer below `2^53`, the round-to-nearest-even
double from `2^53` on (so distinct large segments can collapse to the same
value), and `Infinity` once the rounded value reaches `2^1024`.  The rounded
value of an integer literal is itself an integer (a multiple of a power of
two), so the model represents a non-`NaN` `Number` result as an exact
integer or `±Infinity`.
-/

/-- The result of JS `Number`/`parseInt` on a numeric string: a double whose
    value is an integer, or an infinity. -/
inductive JsNum
  | finite (v : Int)
  | posInf
  | negInf
deriving DecidableEq, Repr

/-- The `<` comparison on non-`NaN` doubles. -/
def JsNum.lt : JsNum → JsNum → Bool
  | JsNum.finite a, JsNum.finite b => a < b
  | JsNum.finite _, JsNum.posInf => true
  | JsNum.negInf, JsNum.finite _ => true
  | JsNum.negInf, JsNum.posInf => true
  | _, _ => false

/-- Number of right-shifts needed to bring `m` below `2^53` (the double
    significand width); the fuel bounds the recursion and covers every value
    below the `2^1024` overflow threshold. -/
def shiftForAux : Nat → Nat → Nat
  | 0, _ => 0
  | fuel + 1, m => if m < 2 ^ 53 then 0 else shiftForAux fuel (m / 2) + 1

def shiftFor (m : Nat) : Nat :=
  shiftForAux 1100 m

/-- The IEEE-754 double (binary64, round-to-nearest-even) value of the
    non-negative integer `n`: exact below `2^53`, rounded to the nearest
    multiple of the spacing `2^shift` from there on, `none` (`Infinity`) when
    the rounded value reaches `2^1024` — i.e. when the spacing exceeds
    `2^971`, or equals it with a full `2^53` significand (a `shiftFor`
    result saturated at the fuel bound is far beyond that threshold). -/
def doubleOfNat (n : Nat) : Option Nat :=
  if n < 2 ^ 53 then some n
  else
    let shift := shiftFor n
    let q := n / 2 ^ shift
    let r := n % 2 ^ shift
    let half := 2 ^ (shift - 1)
    let q' := if half < r ∨ (r = half ∧ q % 2 = 1) then q + 1 else q
    if shift < 971 ∨ (shift = 971 ∧ q' < 2 ^ 53) then some (q' * 2 ^ shift)
    else none

/-- `Number` on a non-negative integer literal. -/
def jsOfNat (n : Nat) : JsNum :=
  match doubleOfNat n with
  | some v => JsNum.finite v
  | none => JsNum.posInf

/-- `Number` on a negated integer literal. -/
def jsOfNegNat (n : Nat) : JsNum :=
  match doubleOfNat n with
  | some v => JsNum.finite (-(v : Int))
  | none => JsNum.negInf

/-- `String.split('.')` on the character list: splits at every `'.'`,
    keeping empty segments (as JS does). -/
def splitOnDot : List Char → List (List Char)
  | [] => [[]]
  | c :: rest =>
    let r := splitOnDot rest
    if c = '.' then [] :: r
    else
      match r with
      | s :: ss => (c :: s) :: ss
      | [] => [[c]]

/-- Exact decimal value of a digit string (the mathematical integer the
    literal denotes; `doubleOfNat` then rounds it to the double JS `Number`
    actually produces). -/
def digitsVal (s : List Char) : Nat :=
  s.foldl (fun a c => a * 10 + (c.toNat - 48)) 0

/-- Every character is a decimal digit. -/
def isDigits (s : List Char) : Bool :=
  s.all Char.isDigit

/-- JS `Number(seg)` on the strings reachable here, restricted to optionally
    signed decimal integer literals: `""` is `0`, a (signed) digit string is
    its value rounded to double precision, anything else is `NaN` (`none`).
    (Exotic JS numeric forms such as hex or exponent notation do not occur in
    version strings and are read as `NaN` by this model.) -/
def jsNumber (s : List Char) : Option JsNum :=
  match s with
  | [] => some (JsNum.finite 0)
  | c :: rest =>
    if c = '-' then
      if rest.isEmpty then none
      else if isDigits rest then some (jsOfNegNat (digitsVal rest)) else none
    else if c = '+' then
      if rest.isEmpty then none
      else if isDigits rest then some (jsOfNat (digitsVal rest)) else none
    else if isDigits (c :: rest) then some (jsOfNat (digitsVal (c :: rest)))
    else none

/-- The value a segment contributes after `|| 0`: `NaN` is falsy in JS, so a
    non-numeric segment is read as `0`. -/
def segVal (s : List Char) : JsNum :=
  (jsNumber s).getD (JsNum.finite 0)

/-- The segment values of a version string, in order. -/
def segVals (s : String) : List JsNum :=
  (splitOnDot s.data).map segVal

/-- Tail of the comparison loop once `current` is exhausted: each remaining
    `latest` part is compared against `0`. -/
def cmpCurExhausted : List JsNum → Bool
  | [] => false
  | l :: ls =>
    if JsNum.lt (JsNum.finite 0) l then true
    else if JsNum.lt l (JsNum.finite 0) then false
    else cmpCurExhausted ls

/-- Tail of the comparison loop once `latest` is exhausted: `0` is compared
    against each remaining `current` part. -/
def cmpLatExhausted : List JsNum → Bool
  | [] => false
  | c :: cs =>
    if JsNum.lt c (JsNum.finite 0) then true
    else if JsNum.lt (JsNum.finite 0) c then false
    else cmpLatExhausted cs

/-- The comparison loop of `isNewerVersion`, as structural recursion on the
    two segment-value lists; an exhausted list contributes `0` (the
    `current[i] || 0` out-of-range case).  `latestPart > currentPart` is
    `currentPart < latestPart` (the parts are never `NaN` after `|| 0`). -/
def cmpSegs : List JsNum → List JsNum → Bool
  | [], ls => cmpCurExhausted ls
  | c :: cs, [] =>
    if JsNum.lt c (JsNum.finite 0) then true
    else if JsNum.lt (JsNum.finite 0) c then false
    else cmpLatExhausted cs
  | c :: cs, l :: ls =>
    if JsNum.lt c l then true else if JsNum.lt l c then false else cmpSegs cs ls

/-- `isNewerVersion(currentVersion, latestVersion)` from the version-checker
    service: `true` iff `latest > current`. -/
def isNewerVersion (currentVersion latestVersion : String) : Bool :=
  cmpSegs (segVals currentVersion) (segVals latestVersion)

/-- JS `parseInt(seg)` on the strings reachable here: longest (signed) digit
    prefix rounded to double precision, `NaN` (`none`) when there is none. -/
def parseIntJs (s : List Char) : Option JsNum :=
  match s with
  | '-' :: rest =>
    match rest.takeWhile Char.isDigit with
    | [] => none
    | ds => some (jsOfNegNat (digitsVal ds))
  | _ =>
    match s.takeWhile Char.isDigit with
    | [] => none
    | ds => some (jsOfNat (digitsVal ds))

/-- Rendering of `(parseInt(p) + 1).toString()`: `NaN` renders as `"NaN"`,
    infinities are absorbing.  Decimal rendering is used for finite values
    (this function only ever receives a component *name* segment in the
    pipeline, so the exponent notation JS switches to from `1e21` upward is
    not reachable). -/
def intSuccStr (o : Option JsNum) : String :=
  match o with
  | none => "NaN"
  | some (JsNum.finite v) => toString (v + 1)
  | some JsNum.posInf => "Infinity"
  | some JsNum.negInf => "-Infinity"

/-- `incrementVersion(version)` from the version-checker service: bump the
    third dot-segment; a string with fewer than three segments is returned
    unchanged. -/
def incrementVersion (version : String) : String :=
  let parts := splitOnDot version.data
  if parts.length < 3 then version
  else
    let parts' := parts.enum.map (fun p =>
      if p.1 = 2 then (intSuccStr (parseIntJs p.2)).data else p.2)
    ⟨(parts'.intersperse ['.']).flatten⟩

/-- `simulateVersionCheck(name, type)`: the hard-coded registry table, falling
    back to `incrementVersion(name)` (the source passes the component *name*
    to `incrementVersion`). -/
def simulateVersionCheck (name _ctype : String) : String :=
  if name = "Node.js" then "18.15.0"
  else if name = "Express" then "4.18.2"
  else if name = "MongoDB" then "6.0.5"
  else if name = "React" then "18.2.0"
  else if name = "Angular" then "15.2.0"
  else if name = "Vue.js" then "3.2.47"
  else if name = "PostgreSQL" then "15.2"
  else if name = "MySQL" then "8.0.32"
  else if name = "Redis" then "7.0.10"
  else if name = "Docker" then "23.0.1"
  else if name = "Kubernetes" then "1.26.3"
  else incrementVersion name

/-! ## DAO operations (`dataAccessObjects.js`) -/

/-- `serviceDAO.findById` / the `_id` filter: first service with the id
    (Mongo `_id` is unique, so "first" is "the"). -/
def findService (st : Store) (sid : Nat) : Option Service :=
  st.services.find? (fun s => s.id == sid)

/-- `componentDAO.findById`. -/
def findComponentById (st : Store) (cid : Nat) : Option Component :=
  st.components.find? (fun c => c.id == cid)

/-- `componentDAO.findOne({name, version})`: first component with the
    `(name, version)` identity. -/
def findComponent (st : Store) (name version : String) : Option Component :=
  st.components.find? (fun c => c.name == name && c.version == version)

/-- `vulnerabilityDAO.findById` (used through `populate`). -/
def findVulnerability (st : Store) (vid : Nat) : Option Vulnerability :=
  st.vulnerabilities.find? (fun v => v.id == vid)

/-- `serviceDAO.addComponent`: `$addToSet` of the component reference —
    adds the id to the `components` array only if it is not already there. -/
def addComponent (st : Store) (sid cid : Nat) : Store :=
  { st with
    services := st.services.map (fun s =>
      if s.id = sid then
        { s with components :=
            if cid ∈ s.components then s.components else s.components ++ [cid] }
      else s) }

/-- `serviceDAO.update(serviceId, {lastScan, status: 'secure'})` at the end of
    the scan handler. -/
def setScanned (st : Store) (sid : Nat) (now : Nat) : Store :=
  { st with
    services := st.services.map (fun s =>
      if s.id = sid then { s with lastScan := some now, status := SStatus.secure }
      else s) }

/-- `serviceDAO.update(serviceId, {status})`. -/
def setStatus (st : Store) (sid : Nat) (status : SStatus) : Store :=
  { st with
    services := st.services.map (fun s =>
      if s.id = sid then { s with status := status } else s) }

/-- `componentDAO.update(componentId, {latestVersion, updateAvailable,
    lastChecked})`. -/
def setComponentChecked (st : Store) (cid : Nat) (latest : String)
    (upd : Bool) (now : Nat) : Store :=
  { st with
    components := st.components.map (fun c =>
      if c.id = cid then
        { c with latestVersion := some latest, updateAvailable := upd,
                 lastChecked := now }
      else c) }

/-- `notificationDAO.create`: a plain insert — `BaseDAO.create` saves a new
    document unconditionally, with no uniqueness or deduplication check. -/
def createNotification (st : Store) (n : Notification) : Store :=
  { st with notifications := st.notifications ++ [n], nextId := st.nextId + 1 }

/-- `notificationDAO.markAllAsRead(userId)`:
    `updateMany({recipients: userId, read: false}, {read: true})` — sets the
    `read` flag on every notification addressed to the user that is unread
    (`updateMany` bypasses the `pre('save')` timestamp middleware, so not even
    `updatedAt` changes). -/
def markAllAsRead (st : Store) (userId : Nat) : Store :=
  { st with
    notifications := st.notifications.map (fun n =>
      if userId ∈ n.recipients ∧ n.read = false then { n with read := true }
      else n) }

/-! ## Stack scanner (`stackScannerService.js`, `POST /api/scan`) -/

/-- One entry of the discovered-component list. -/
structure DetectedComp where
  name : String
  version : String
  ctype : String
deriving DecidableEq, Repr

/-- The simulated `detectedComponents` constant of the scan handler. -/
def detectedComponents : List DetectedComp :=
  [ { name := "Node.js", version := "16.14.0", ctype := "language" },
    { name := "Express", version := "4.17.3", ctype := "framework" },
    { name := "MongoDB", version := "5.0.6", ctype := "database" } ]

/-- One iteration of the scan handler's loop: look the component up by
    `(name, version)`, create it if absent, then `$addToSet` its id on the
    service. -/
def processComp (st : Store) (sid : Nat) (dc : DetectedComp) : Store :=
  match findComponent st dc.name dc.version with
  | some c => addComponent st sid c.id
  | none =>
    let c : Component :=
      { id := st.nextId, name := dc.name, version := dc.version,
        ctype := dc.ctype, latestVersion := none, updateAvailable := false,
        lastChecked := 0 }
    let st' : Store :=
      { st with components := st.components ++ [c], nextId := st.nextId + 1 }
    addComponent st' sid c.id

/-- `POST /api/scan`: 404 (store unchanged) when the service does not exist;
    otherwise upsert every discovered component, add its reference to the
    service, and finally set `lastScan = now` and `status = 'secure'`
    unconditionally.  The handler's discovered list is the simulated constant
    `detectedComponents`; the scan is modelled over an arbitrary discovered
    list `d`, as in the exposed `scanService(serviceId, components[])`. -/
def scanService (st : Store) (sid : Nat) (d : List DetectedComp) (now : Nat) :
    Store :=
  match findService st sid with
  | none => st
  | some _ =>
    let st' := d.foldl (fun st dc => processComp st sid dc) st
    setScanned st' sid now

/-! ## Version checker (`POST /api/check-updates`, `POST /api/check-all-updates`) -/

/-- The notification document built inside the check-updates loop for one
    referencing service. -/
def updateNotification (st : Store) (c : Component) (latest : String)
    (sid : Nat) (now : Nat) : Notification :=
  { id := st.nextId,
    title := "Mise à jour disponible",
    message := "Une nouvelle version (" ++ latest ++ ") est disponible pour "
      ++ c.name ++ ". Version actuelle: " ++ c.version,
    ntype := "update",
    severity := "info",
    service := some sid,
    recipients := [],
    read := false,
    createdAt := now,
    updatedAt := now }

/-- One iteration of the check-updates fan-out loop over the snapshot of
    referencing services: create the update notification, then move the
    service to `'outdated'` when its snapshot status was `'secure'`. -/
def notifyService (c : Component) (latest : String) (now : Nat)
    (st : Store) (s : Service) : Store :=
  let st' := createNotification st (updateNotification st c latest s.id now)
  if s.status = SStatus.secure then setStatus st' s.id SStatus.outdated else st'

/-- `POST /api/check-updates` with body `{componentId}`: 404 (store unchanged)
    when the component does not exist; otherwise persist
    `latestVersion/updateAvailable/lastChecked`, and — only when an update is
    available — create one notification per service referencing the component
    and flip snapshot-`'secure'` referencing services to `'outdated'`. -/
def checkUpdates (st : Store) (cid : Nat) (now : Nat) : Store :=
  match findComponentById st cid with
  | none => st
  | some c =>
    let latest := simulateVersionCheck c.name c.ctype
    let upd := isNewerVersion c.version latest
    let st1 := setComponentChecked st cid latest upd now
    if upd then
      let refs := st1.services.filter (fun s => cid ∈ s.components)
      refs.foldl (notifyService c latest now) st1
    else st1

/-- Batch counters returned by `POST /api/check-all-updates`. -/
structure BatchResults where
  total : Nat
  updated : Nat
  withUpdates : Nat
deriving DecidableEq, Repr

/-- One iteration of the check-all-updates loop: recheck one component and
    bump the counters.  No notification is created and no service is
    touched. -/
def checkOneOfAll (now : Nat) (acc : Store × BatchResults) (c : Component) :
    Store × BatchResults :=
  let latest := simulateVersionCheck c.name c.ctype
  let upd := isNewerVersion c.version latest
  let st := setComponentChecked acc.1 c.id latest upd now
  let r := { acc.2 with
    updated := acc.2.updated + 1,
    withUpdates := if upd then acc.2.withUpdates + 1 else acc.2.withUpdates }
  (st, r)

/-- `POST /api/check-all-updates`: fold the recheck over the snapshot of all
    components. -/
def checkAllUpdates (st : Store) (now : Nat) : Store × BatchResults :=
  st.components.foldl (checkOneOfAll now)
    (st, { total := st.components.length, updated := 0, withUpdates := 0 })

/-! ## Report generator (`reportGeneratorService.js`, `POST /api/generate`) -/

/-- `populate('vulnerabilities.details')` for one association entry: the
    referenced `Vulnerability` document, `none` when the reference dangles
    (`vuln.details` is then `null` and the tally skips it). -/
def resolveVuln (st : Store) (a : VulnAssoc) : Option Vulnerability :=
  match a.details with
  | none => none
  | some vid => findVulnerability st vid

/-- The tally step for one `vulnerabilities` entry of a service: bump the
    per-severity counter of the resolved vulnerability (`info` has no
    counter in the summary and is not counted). -/
def tallyVuln (st : Store) (sum : Summary) (a : VulnAssoc) : Summary :=
  match resolveVuln st a with
  | none => sum
  | some v =>
    let sum := if v.severity = Severity.critical then
      { sum with criticalVulnerabilities := sum.criticalVulnerabilities + 1 } else sum
    let sum := if v.severity = Severity.high then
      { sum with highVulnerabilities := sum.highVulnerabilities + 1 } else sum
    let sum := if v.severity = Severity.medium then
      { sum with mediumVulnerabilities := sum.mediumVulnerabilities + 1 } else sum
    let sum := if v.severity = Severity.low then
      { sum with lowVulnerabilities := sum.lowVulnerabilities + 1 } else sum
    sum

/-- The tally step for one service: bump the status counter, then tally every
    `vulnerabilities` entry of this service. -/
def tallyService (st : Store) (sum : Summary) (s : Service) : Summary :=
  let sum := if s.status = SStatus.secure then
    { sum with secureServices := sum.secureServices + 1 } else sum
  let sum := if s.status = SStatus.vulnerable then
    { sum with vulnerableServices := sum.vulnerableServices + 1 } else sum
  let sum := if s.status = SStatus.outdated then
    { sum with outdatedServices := sum.outdatedServices + 1 } else sum
  s.vulnerabilities.foldl (tallyVuln st) sum

/-- The summary computation of the generate handler over the resolved
    (`validServices`) list. -/
def computeSummary (st : Store) (svcs : List Service) : Summary :=
  svcs.foldl (tallyService st)
    { totalServices := svcs.length, secureServices := 0,
      vulnerableServices := 0, outdatedServices := 0,
      criticalVulnerabilities := 0, highVulnerabilities := 0,
      mediumVulnerabilities := 0, lowVulnerabilities := 0 }

/-- The fix-immediately recommendation (first rule of
    `generateRecommendations`). -/
def recFixCritical : String :=
  "Corriger immédiatement les vulnérabilités critiques en mettant à jour les composants concernés."

def recHigh : String :=
  "Planifier la correction des vulnérabilités à risque élevé dans les plus brefs délais."

def recVulnerable (n : Nat) : String :=
  "Prioriser la mise à jour des " ++ toString n ++ " services vulnérables identifiés."

def recOutdated (n : Nat) : String :=
  "Mettre à jour les " ++ toString n
    ++ " services obsolètes pour bénéficier des dernières fonctionnalités et corrections de sécurité."

def recMonitoring : String :=
  "Mettre en place une surveillance continue des vulnérabilités et des mises à jour disponibles."

def recTests : String :=
  "Effectuer des tests de sécurité approfondis après la correction des vulnérabilités."

/-- `generateRecommendations(summary, services)`: the fixed-order rule table.
    The `services` argument is accepted (as in the source) but never used. -/
def generateRecommendations (summary : Summary) (_services : List Service) :
    List String :=
  let recommendations : List String := []
  let recommendations :=
    if summary.criticalVulnerabilities > 0 then recommendations ++ [recFixCritical]
    else recommendations
  let recommendations :=
    if summary.highVulnerabilities > 0 then recommendations ++ [recHigh]
    else recommendations
  let recommendations :=
    if summary.vulnerableServices > 0 then
      recommendations ++ [recVulnerable summary.vulnerableServices]
    else recommendations
  let recommendations :=
    if summary.outdatedServices > 0 then
      recommendations ++ [recOutdated summary.outdatedServices]
    else recommendations
  let recommendations := recommendations ++ [recMonitoring]
  let recommendations :=
    if summary.vulnerableServices > 0 || summary.criticalVulnerabilities > 0
        || summary.highVulnerabilities > 0 then
      recommendations ++ [recTests]
    else recommendations
  recommendations

/-- The error taxonomy surfaced by the generate handler: a 400 response for
    caller-fault validation failures, a 404 response when nothing resolves. -/
inductive GenError
  | validationError (msg : String)
  | notFoundError (msg : String)
deriving DecidableEq, Repr

/-- `POST /api/generate` with body `{title, serviceIds, format}` (the absent /
    non-array `serviceIds` guard collapses onto the emptiness check; a missing
    `title` is the empty string, falsy in JS): validate, resolve the services,
    tally the summary, generate the recommendations, and persist the report.
    On any failure the handler returns before `reportDAO.create`, so no report
    is persisted. -/
def generateReport (st : Store) (title : String) (serviceIds : List Nat)
    (format : String) (userId : Nat) (now : Nat) :
    Except GenError (Store × Report) :=
  if title = "" then .error (.validationError "Titre du rapport requis")
  else if serviceIds.isEmpty then
    .error (.validationError "IDs des services requis")
  else
    let validServices := serviceIds.filterMap (fun i => findService st i)
    if validServices.isEmpty then
      .error (.notFoundError "Aucun service valide trouvé")
    else
      let summary := computeSummary st validServices
      let recommendations := generateRecommendations summary validServices
      let report : Report :=
        { title := title, services := serviceIds, summary := summary,
          format := format, recommendations := recommendations,
          generatedBy := userId,
          filePath := "/reports/" ++ toString now ++ "_report." ++ format }
      .ok ({ st with reports := st.reports ++ [report] }, report)

/-- The store state after the generate handler: unchanged when the handler
    fails. -/
def runGenerateReport (st : Store) (title : String) (serviceIds : List Nat)
    (format : String) (userId : Nat) (now : Nat) : Store :=
  match generateReport st title serviceIds format userId now with
  | .error _ => st
  | .ok (st', _) => st'

/-! ## Spec-side definitions

These follow the specification's words, not the source, and exist to be
compared against the source-derived definitions above. -/

/-- Severity ≥ medium under the spec ordering {critical, high, medium, low,
    info}. -/
def mediumOrAbove : Severity → Bool
  | Severity.critical => true
  | Severity.high => true
  | Severity.medium => true
  | _ => false

/-- Whether invariant I1 fires: some associated open vulnerability of
    severity ≥ medium. -/
def hasBlockingVuln (st : Store) (s : Service) : Bool :=
  s.vulnerabilities.any (fun a =>
    match resolveVuln st a with
    | some v => decide (v.status = VulnStatus.vopen) && mediumOrAbove v.severity
    | none => false)

/-- Whether invariant I2 fires: some associated component with
    `updateAvailable = true`. -/
def hasOutdatedComp (st : Store) (s : Service) : Bool :=
  s.components.any (fun cid =>
    match findComponentById st cid with
    | some c => c.updateAvailable
    | none => false)

/-- The status prescribed by the spec's invariants I1–I3 (with `unknown`
    before any scan), computed from the service's current stored
    associations. -/
def specStatus (st : Store) (s : Service) : SStatus :=
  if s.lastScan = none then SStatus.unknown
  else if hasBlockingVuln st s then SStatus.vulnerable
  else if hasOutdatedComp st s then SStatus.outdated
  else SStatus.secure

/-- The spec's version order: `specLexGt latest current` is `true` iff
    `latest > current` under lexicographic comparison of the integer tuples,
    missing trailing segments padded with zero. -/
def specLexGt : List Nat → List Nat → Bool
  | [], _ => false
  | l :: ls, [] => if 0 < l then true else specLexGt ls []
  | l :: ls, c :: cs =>
    if c < l then true else if l < c then false else specLexGt ls cs

/-- A dot-segment that is a non-negative integer: nonempty and all digits. -/
def numericSeg (s : List Char) : Bool :=
  !s.isEmpty && isDigits s

/-- A version string made of dot-separated non-negative integer segments. -/
def NumericVersion (s : String) : Prop :=
  ∀ seg ∈ splitOnDot s.data, numericSeg seg = true

/-- The integer tuple of a numeric version string. -/
def natVals (s : String) : List Nat :=
  (splitOnDot s.data).map digitsVal

instance (s : String) : Decidable (NumericVersion s) :=
  inferInstanceAs (Decidable (∀ seg ∈ splitOnDot s.data, numericSeg seg = true))

/-- Every segment's integer value is below `2^53`: the range where the
    doubles produced by `Number` are exact. -/
def SafeVersion (s : String) : Prop :=
  ∀ seg ∈ splitOnDot s.data, digitsVal seg < 2 ^ 53

instance (s : String) : Decidable (SafeVersion s) :=
  inferInstanceAs (Decidable (∀ seg ∈ splitOnDot s.data, digitsVal seg < 2 ^ 53))

/-- `'.'`-joining of segments (inverse of `splitOnDot` on dot-free
    segments). -/
def joinDots (segs : List (List Char)) : List Char :=
  (segs.intersperse ['.']).flatten

/-- Replace every segment that `Number` reads as `NaN` by `"0"`. -/
def sanitizeVersion (s : String) : String :=
  ⟨joinDots ((splitOnDot s.data).map
    (fun seg => if (jsNumber seg).isSome then seg else ['0']))⟩

/-- A version string containing at least one non-numeric (`NaN`) segment. -/
def hasNonNumericSeg (s : String) : Bool :=
  (splitOnDot s.data).any (fun seg => (jsNumber seg).isNone)

/-! ## Lemmas: version comparison -/

theorem splitOnDot_ne_nil (s : List Char) : splitOnDot s ≠ [] := by
  cases s with
  | nil => simp [splitOnDot]
  | cons c rest =>
    simp only [splitOnDot]
    split
    · simp
    · split <;> simp

theorem splitOnDot_no_dot (s : List Char) :
    ∀ seg ∈ splitOnDot s, '.' ∉ seg := by
  induction s with
  | nil => simp [splitOnDot]
  | cons c rest ih =>
    intro seg hseg
    simp only [splitOnDot] at hseg
    by_cases hc : c = '.'
    · rw [if_pos hc] at hseg
      rcases List.mem_cons.mp hseg with h | h
      · simp [h]
      · exact ih seg h
    · rw [if_neg hc] at hseg
      rcases hr : splitOnDot rest with _ | ⟨s0, ss⟩
      · exact absurd hr (splitOnDot_ne_nil rest)
      · rw [hr] at hseg
        rcases List.mem_cons.mp hseg with h | h
        · subst h
          intro hmem
          rcases List.mem_cons.mp hmem with h | h
          · exact hc h.symm
          · exact ih s0 (by simp [hr]) h
        · exact ih seg (by simp [hr, h])

theorem splitOnDot_of_no_dot (s : List Char) (h : '.' ∉ s) :
    splitOnDot s = [s] := by
  induction s with
  | nil => simp [splitOnDot]
  | cons c rest ih =>
    have hc : c ≠ '.' := fun hc => h (by simp [hc])
    have hrest : '.' ∉ rest := fun hm => h (List.mem_cons_of_mem _ hm)
    simp only [splitOnDot, if_neg hc, ih hrest]

theorem splitOnDot_append_dot (x t : List Char) (h : '.' ∉ x) :
    splitOnDot (x ++ '.' :: t) = x :: splitOnDot t := by
  induction x with
  | nil => simp [splitOnDot]
  | cons c x' ih =>
    have hc : c ≠ '.' := fun hc => h (by simp [hc])
    have hx' : '.' ∉ x' := fun hm => h (List.mem_cons_of_mem _ hm)
    simp only [List.cons_append, splitOnDot, if_neg hc, List.append_eq, ih hx']

theorem splitOnDot_joinDots (segs : List (List Char)) (hne : segs ≠ [])
    (hnd : ∀ seg ∈ segs, '.' ∉ seg) :
    splitOnDot (joinDots segs) = segs := by
  induction segs with
  | nil => exact absurd rfl hne
  | cons x rest ih =>
    cases rest with
    | nil =>
      simp only [joinDots, List.intersperse_single, List.flatten_cons,
        List.flatten_nil, List.append_nil]
      exact splitOnDot_of_no_dot x (hnd x (by simp))
    | cons y rest' =>
      have hx : '.' ∉ x := hnd x (by simp)
      have hjoin : joinDots (x :: y :: rest') = x ++ '.' :: joinDots (y :: rest') := by
        simp [joinDots, List.intersperse]
      rw [hjoin, splitOnDot_append_dot x _ hx,
        ih (by simp) (fun seg hs => hnd seg (List.mem_cons_of_mem _ hs))]

theorem jsOfNat_small (n : Nat) (h : n < 2 ^ 53) :
    jsOfNat n = JsNum.finite n := by
  unfold jsOfNat doubleOfNat
  rw [if_pos h]

theorem jsNumber_numeric (s : List Char) (h : numericSeg s = true)
    (hsmall : digitsVal s < 2 ^ 53) :
    jsNumber s = some (JsNum.finite (digitsVal s)) := by
  cases s with
  | nil => simp [numericSeg] at h
  | cons c rest =>
    have hdig : isDigits (c :: rest) = true := by
      simp [numericSeg] at h; exact h
    have hc : c.isDigit = true := by
      simp [isDigits, List.all_cons] at hdig; exact hdig.1
    have hcm : c ≠ '-' := by intro hc'; rw [hc'] at hc; simp [Char.isDigit] at hc
    have hcp : c ≠ '+' := by intro hc'; rw [hc'] at hc; simp [Char.isDigit] at hc
    simp [jsNumber, if_neg hcm, if_neg hcp, hdig, jsOfNat_small _ hsmall]

theorem segVal_numeric (s : List Char) (h : numericSeg s = true)
    (hsmall : digitsVal s < 2 ^ 53) :
    segVal s = JsNum.finite (digitsVal s) := by
  simp [segVal, jsNumber_numeric s h hsmall]

theorem cmpCurExhausted_ofNat (ls : List Nat) :
    cmpCurExhausted (ls.map (fun n : Nat => JsNum.finite (n : Int)))
      = specLexGt ls [] := by
  induction ls with
  | nil => simp [cmpCurExhausted, specLexGt]
  | cons l ls ih =>
    simp only [List.map_cons, cmpCurExhausted, specLexGt]
    by_cases hl : 0 < l
    · rw [if_pos (by simp [JsNum.lt] <;> omega), if_pos hl]
    · rw [if_neg (by simp [JsNum.lt] <;> omega),
        if_neg (by simp [JsNum.lt] <;> omega), if_neg hl, ih]

theorem cmpLatExhausted_ofNat (cs : List Nat) :
    cmpLatExhausted (cs.map (fun n : Nat => JsNum.finite (n : Int))) = false := by
  induction cs with
  | nil => simp [cmpLatExhausted]
  | cons c cs ih =>
    simp only [List.map_cons, cmpLatExhausted]
    rw [if_neg (by simp [JsNum.lt] <;> omega), ih]
    simp

theorem cmpSegs_ofNat (cs ls : List Nat) :
    cmpSegs (cs.map (fun n : Nat => JsNum.finite (n : Int)))
        (ls.map (fun n : Nat => JsNum.finite (n : Int)))
      = specLexGt ls cs := by
  induction cs generalizing ls with
  | nil =>
    simp only [List.map_nil]
    exact cmpCurExhausted_ofNat ls
  | cons c cs ih =>
    cases ls with
    | nil =>
      simp only [List.map_cons, List.map_nil, cmpSegs, specLexGt]
      rw [if_neg (by simp [JsNum.lt] <;> omega)]
      by_cases hc : 0 < c
      · rw [if_pos (by simp [JsNum.lt] <;> omega)]
      · rw [if_neg (by simp [JsNum.lt] <;> omega)]
        exact cmpLatExhausted_ofNat cs
    | cons l ls =>
      simp only [List.map_cons, cmpSegs, specLexGt]
      by_cases h1 : c < l
      · rw [if_pos (by simp [JsNum.lt] <;> omega), if_pos h1]
      · rw [if_neg (by simp [JsNum.lt] <;> omega), if_neg h1]
        by_cases h2 : l < c
        · rw [if_pos (by simp [JsNum.lt] <;> omega), if_pos h2]
        · rw [if_neg (by simp [JsNum.lt] <;> omega), if_neg h2, ih ls]

theorem segVals_numeric (s : String) (h : NumericVersion s)
    (hs : SafeVersion s) :
    segVals s = (natVals s).map (fun n : Nat => JsNum.finite (n : Int)) := by
  unfold segVals natVals
  rw [List.map_map]
  exact List.map_congr_left
    (fun seg hseg => segVal_numeric seg (h seg hseg) (hs seg hseg))

theorem splitOnDot_sanitize (s : String) :
    splitOnDot (sanitizeVersion s).data
      = (splitOnDot s.data).map
          (fun seg => if (jsNumber seg).isSome then seg else ['0']) := by
  apply splitOnDot_joinDots
  · simp [splitOnDot_ne_nil s.data]
  · intro seg hseg
    rcases List.mem_map.mp hseg with ⟨x, hx, hfx⟩
    by_cases hjs : (jsNumber x).isSome
    · rw [← hfx, if_pos hjs]
      exact splitOnDot_no_dot s.data x hx
    · rw [← hfx, if_neg hjs]
      decide

theorem segVals_sanitize (s : String) :
    segVals (sanitizeVersion s) = segVals s := by
  unfold segVals
  rw [splitOnDot_sanitize, List.map_map]
  apply List.map_congr_left
  intro seg _
  simp only [Function.comp_apply]
  by_cases hjs : (jsNumber seg).isSome
  · rw [if_pos hjs]
  · rw [if_neg hjs]
    have hnone := Option.not_isSome_iff_eq_none.mp hjs
    have h0 : segVal ['0'] = JsNum.finite 0 := by decide
    rw [h0]
    simp [segVal, hnone]

/-! ## C3 / C4: version comparison claims -/

/-- C3 counterexample: `"9007199254740992"` and `"9007199254740993"` are
    dot-separated non-negative integer versions and the latter is strictly
    greater under the exact lexicographic order, yet `isNewerVersion` returns
    `false`: `Number` rounds both segments to the same IEEE-754 double
    (`2^53`), so the program compares them equal.  The claimed biconditional
    over all integer-segment versions is therefore false of the program. -/
theorem isNewerVersion_precision_counterexample :
    NumericVersion "9007199254740992" ∧ NumericVersion "9007199254740993"
    ∧ specLexGt (natVals "9007199254740993") (natVals "9007199254740992")
        = true
    ∧ isNewerVersion "9007199254740992" "9007199254740993" = false := by
  refine ⟨by decide, by decide, by decide, by decide⟩

/-- C3 (amended): for version strings made of dot-separated non-negative
    integer segments that are each below `2^53` (the range where the doubles
    produced by `Number` are exact), `isNewerVersion current latest` is
    `true` iff `latest > current` under lexicographic comparison of the
    integer tuples with missing trailing segments padded with zero; and
    `isNewer "1.9.0" "1.10.0" = true`, `isNewer "2.0.0" "1.9.9" = false`,
    `isNewer "1.2" "1.2.0" = false`.  From `2^53` on, `Number` rounds to the
    nearest double, so distinct segments can compare equal. -/
theorem isNewerVersion_correct_small :
    (∀ c l : String, NumericVersion c → NumericVersion l →
      SafeVersion c → SafeVersion l →
      isNewerVersion c l = specLexGt (natVals l) (natVals c))
    ∧ isNewerVersion "1.9.0" "1.10.0" = true
    ∧ isNewerVersion "2.0.0" "1.9.9" = false
    ∧ isNewerVersion "1.2" "1.2.0" = false := by
  refine ⟨?_, by decide, by decide, by decide⟩
  intro c l hc hl hsc hsl
  unfold isNewerVersion
  rw [segVals_numeric c hc hsc, segVals_numeric l hl hsl, cmpSegs_ofNat]

/-- Witness for C3 (amended) at `("1.9.0", "1.10.0")`. -/
theorem isNewerVersion_correct_small_witness :
    isNewerVersion "1.9.0" "1.10.0"
      = specLexGt (natVals "1.10.0") (natVals "1.9.0") :=
  isNewerVersion_correct_small.1 "1.9.0" "1.10.0"
    (by decide) (by decide) (by decide) (by decide)

/-- C4 counterexample: `"1.x"` has a non-numeric segment, yet
    `isNewerVersion "1.x" "1.2" = true` — the comparison does not fail
    closed to "no update available" whenever the current version contains a
    non-numeric segment. -/
theorem isNewerVersion_nonNumeric_counterexample :
    hasNonNumericSeg "1.x" = true ∧ isNewerVersion "1.x" "1.2" = true :=
  ⟨by decide, by decide⟩

/-- C4 (amended): `isNewerVersion` is a total function (it never throws) and
    treats every non-numeric segment as `0` (`Number` yields `NaN`, and
    `NaN || 0` is `0`): the comparison is exactly the comparison of the same
    versions with every non-numeric segment replaced by `"0"`, so the result
    may still be `true` when the current version has a non-numeric
    segment. -/
theorem isNewerVersion_nonNumeric_amended :
    ∀ c l : String,
      isNewerVersion c l = isNewerVersion (sanitizeVersion c) (sanitizeVersion l) := by
  intro c l
  unfold isNewerVersion
  rw [segVals_sanitize, segVals_sanitize]

/-! ## C9: recommendation generation -/

/-- C9: `generateRecommendations` is a deterministic function of the summary
    (its `services` argument does not influence the output), and whenever
    `summary.criticalVulnerabilities > 0` the first entry of the output is
    the fix-immediately recommendation. -/
theorem generateRecommendations_deterministic :
    (∀ (sum : Summary) (svcs1 svcs2 : List Service),
      generateRecommendations sum svcs1 = generateRecommendations sum svcs2)
    ∧ (∀ (sum : Summary) (svcs : List Service),
      0 < sum.criticalVulnerabilities →
      (generateRecommendations sum svcs).head? = some recFixCritical) := by
  constructor
  · intro sum svcs1 svcs2
    rfl
  · intro sum svcs h
    simp only [generateRecommendations]
    rw [if_pos h]
    simp only [List.nil_append]
    split_ifs <;> simp

/-- Witness for C9 at a summary with one critical vulnerability. -/
theorem generateRecommendations_deterministic_witness :
    (generateRecommendations
      { totalServices := 1, secureServices := 0, vulnerableServices := 0,
        outdatedServices := 0, criticalVulnerabilities := 1,
        highVulnerabilities := 0, mediumVulnerabilities := 0,
        lowVulnerabilities := 0 } []).head? = some recFixCritical :=
  generateRecommendations_deterministic.2
    { totalServices := 1, secureServices := 0, vulnerableServices := 0,
      outdatedServices := 0, criticalVulnerabilities := 1,
      highVulnerabilities := 0, mediumVulnerabilities := 0,
      lowVulnerabilities := 0 } [] (by decide)

/-! ## C10: `markAllAsRead` frame property -/

/-- C10: `markAllAsRead u` sets `read := true` on exactly the notifications
    whose recipients contain `u` and whose `read` flag is `false`, leaving
    every other field of those notifications and every other notification —
    and every other collection of the store — unchanged. -/
theorem markAllAsRead_spec :
    ∀ (st : Store) (u : Nat),
      (markAllAsRead st u).components = st.components
      ∧ (markAllAsRead st u).services = st.services
      ∧ (markAllAsRead st u).vulnerabilities = st.vulnerabilities
      ∧ (markAllAsRead st u).reports = st.reports
      ∧ (markAllAsRead st u).notifications.length = st.notifications.length
      ∧ (∀ i n, st.notifications.get? i = some n →
          u ∈ n.recipients → n.read = false →
          (markAllAsRead st u).notifications.get? i
            = some { n with read := true })
      ∧ (∀ i n, st.notifications.get? i = some n →
          ¬(u ∈ n.recipients ∧ n.read = false) →
          (markAllAsRead st u).notifications.get? i = some n) := by
  intro st u
  refine ⟨rfl, rfl, rfl, rfl, by simp [markAllAsRead], ?_, ?_⟩
  · intro i n h hmem hread
    simp only [markAllAsRead, List.get?_map, h, Option.map_some']
    rw [if_pos ⟨hmem, hread⟩]
  · intro i n h hcond
    simp only [markAllAsRead, List.get?_map, h, Option.map_some']
    rw [if_neg hcond]

/-- Concrete store for the C10 witness: one unread notification addressed to
    user `7` and one addressed to user `8`. -/
def w10store : Store :=
  { components := [], services := [], vulnerabilities := [],
    notifications :=
      [ { id := 0, title := "a", message := "m", ntype := "system",
          severity := "info", service := none, recipients := [7],
          read := false, createdAt := 0, updatedAt := 0 },
        { id := 1, title := "b", message := "m", ntype := "system",
          severity := "info", service := none, recipients := [8],
          read := false, createdAt := 0, updatedAt := 0 } ],
    reports := [], nextId := 2 }

/-- Witness for C10: in `w10store`, marking all as read for user `7` flips
    exactly the first notification's `read` flag. -/
theorem markAllAsRead_spec_witness :
    (markAllAsRead w10store 7).notifications.get? 0
      = some { id := 0, title := "a", message := "m", ntype := "system",
               severity := "info", service := none, recipients := [7],
               read := true, createdAt := 0, updatedAt := 0 } :=
  (markAllAsRead_spec w10store 7).2.2.2.2.2.1 0
    { id := 0, title := "a", message := "m", ntype := "system",
      severity := "info", service := none, recipients := [7],
      read := false, createdAt := 0, updatedAt := 0 }
    rfl (by decide) rfl

/-! ## C8: report-generation validation -/

/-- Concrete store for the C8 counterexample: one service with id `1`. -/
def c8store : Store :=
  { components := [],
    services := [ { id := 1, name := "svc", components := [],
                    vulnerabilities := [], status := SStatus.unknown,
                    lastScan := none } ],
    vulnerabilities := [], notifications := [], reports := [], nextId := 2 }

/-- C8 counterexample: when none of the given service ids resolve, the
    handler fails with the 404 not-found error, not with a
    `ValidationError`. -/
theorem generateReport_notFound_counterexample :
    generateReport c8store "Rapport" [99] "html" 1 0
      = Except.error (GenError.notFoundError "Aucun service valide trouvé")
    ∧ ∀ msg, generateReport c8store "Rapport" [99] "html" 1 0
        ≠ Except.error (GenError.validationError msg) := by
  have h1 : generateReport c8store "Rapport" [99] "html" 1 0
      = Except.error (GenError.notFoundError "Aucun service valide trouvé") := by
    rfl
  refine ⟨h1, ?_⟩
  intro msg h
  rw [h1] at h
  exact GenError.noConfusion (Except.error.inj h)

/-- C8 (amended): an empty `serviceIds` fails with a `ValidationError`
    (HTTP 400), while a non-empty `serviceIds` of which none resolve fails
    with a `NotFoundError` (HTTP 404); in both failure cases no report is
    persisted (the store is unchanged). -/
theorem generateReport_validation_amended :
    ∀ (st : Store) (title : String) (ids : List Nat) (fmt : String)
      (uid now : Nat), title ≠ "" →
      (ids = [] →
        generateReport st title ids fmt uid now
          = Except.error (GenError.validationError "IDs des services requis")
        ∧ runGenerateReport st title ids fmt uid now = st)
      ∧ ((∀ i ∈ ids, findService st i = none) →
        ids ≠ [] →
        generateReport st title ids fmt uid now
          = Except.error (GenError.notFoundError "Aucun service valide trouvé")
        ∧ runGenerateReport st title ids fmt uid now = st) := by
  intro st title ids fmt uid now htitle
  constructor
  · intro hids
    have hgen : generateReport st title ids fmt uid now
        = Except.error (GenError.validationError "IDs des services requis") := by
      unfold generateReport
      rw [if_neg htitle, if_pos (by simp [hids])]
    exact ⟨hgen, by unfold runGenerateReport; rw [hgen]⟩
  · intro hnone hne
    have hgen : generateReport st title ids fmt uid now
        = Except.error (GenError.notFoundError "Aucun service valide trouvé") := by
      unfold generateReport
      rw [if_neg htitle, if_neg (by simp [hne]),
        if_pos (by simp [List.filterMap_eq_nil]; exact hnone)]
    exact ⟨hgen, by unfold runGenerateReport; rw [hgen]⟩

/-- Witness for C8 (amended) at `c8store` with an empty id list and with the
    non-resolving id list `[99]`. -/
theorem generateReport_validation_amended_witness :
    (generateReport c8store "Rapport" [] "html" 1 0
      = Except.error (GenError.validationError "IDs des services requis")
    ∧ runGenerateReport c8store "Rapport" [] "html" 1 0 = c8store)
    ∧ (generateReport c8store "Rapport" [99] "html" 1 0
      = Except.error (GenError.notFoundError "Aucun service valide trouvé")
    ∧ runGenerateReport c8store "Rapport" [99] "html" 1 0 = c8store) :=
  ⟨(generateReport_validation_amended c8store "Rapport" [] "html" 1 0
      (by decide)).1 rfl,
   (generateReport_validation_amended c8store "Rapport" [99] "html" 1 0
      (by decide)).2 (by decide) (by decide)⟩

/-! ## C2: notification deduplication -/

/-- Concrete store for the C2 failing input: one component (`Node.js` at
    `16.14.0`, so an update to `18.15.0` is detected) referenced by one
    service. -/
def c2store : Store :=
  { components :=
      [ { id := 1, name := "Node.js", version := "16.14.0",
          ctype := "language", latestVersion := none,
          updateAvailable := false, lastChecked := 0 } ],
    services :=
      [ { id := 10, name := "orders-api", components := [1],
          vulnerabilities := [], status := SStatus.secure,
          lastScan := some 0 } ],
    vulnerabilities := [], notifications := [], reports := [], nextId := 11 }

/-- C2: running the check-updates ingestion path twice with the same fact
    (component `1`, update available) creates **two** notifications with the
    same `(service, factKind)` key — `notificationDAO.create` performs a
    plain insert and no handler checks for an existing notification, so the
    dedup property fails on this input. -/
theorem checkUpdates_duplicate_notifications :
    ((checkUpdates (checkUpdates c2store 1 5) 1 6).notifications.map
      (fun n => (n.service, n.ntype)))
      = [(some 10, "update"), (some 10, "update")]
    ∧ ((checkUpdates (checkUpdates c2store 1 5) 1 6).notifications.countP
        (fun n => n.service == some 10 && n.ntype == "update")) = 2 := by
  constructor
  · decide
  · decide

/-! ## Lemmas: `find?` through id-preserving service updates -/

theorem find?_map_id_pres (f : Service → Service)
    (hf : ∀ s, (f s).id = s.id) (l : List Service) (sid : Nat) :
    (l.map f).find? (fun s => s.id == sid)
      = (l.find? (fun s => s.id == sid)).map f := by
  induction l with
  | nil => rfl
  | cons a l ih =>
    simp only [List.map_cons]
    by_cases hp : (a.id == sid) = true
    · have h1 : List.find? (fun s => s.id == sid) (f a :: List.map f l)
          = some (f a) :=
        List.find?_cons_of_pos _ (by simpa [hf a] using hp)
      have h2 : List.find? (fun s => s.id == sid) (a :: l) = some a :=
        List.find?_cons_of_pos _ hp
      rw [h1, h2, Option.map_some']
    · have h1 : List.find? (fun s => s.id == sid) (f a :: List.map f l)
          = List.find? (fun s => s.id == sid) (List.map f l) :=
        List.find?_cons_of_neg _ (by simpa [hf a] using hp)
      have h2 : List.find? (fun s => s.id == sid) (a :: l)
          = List.find? (fun s => s.id == sid) l :=
        List.find?_cons_of_neg _ (by simpa using hp)
      rw [h1, h2, ih]

/-- `findService` only reads the `services` collection. -/
theorem findService_eq_of_services (st' st : Store)
    (h : st'.services = st.services) (tid : Nat) :
    findService st' tid = findService st tid := by
  unfold findService
  rw [h]

theorem findService_addComponent (st : Store) (sid cid tid : Nat) :
    findService (addComponent st sid cid) tid
      = (findService st tid).map (fun s =>
          if s.id = sid then
            { s with components :=
                if cid ∈ s.components then s.components
                else s.components ++ [cid] }
          else s) := by
  unfold findService addComponent
  exact find?_map_id_pres _
    (fun s => by by_cases h : s.id = sid <;> simp [h]) _ _

theorem findService_setScanned (st : Store) (sid now tid : Nat) :
    findService (setScanned st sid now) tid
      = (findService st tid).map (fun s =>
          if s.id = sid then
            { s with lastScan := some now, status := SStatus.secure }
          else s) := by
  unfold findService setScanned
  exact find?_map_id_pres _
    (fun s => by by_cases h : s.id = sid <;> simp [h]) _ _

theorem findService_setStatus (st : Store) (sid : Nat) (status : SStatus)
    (tid : Nat) :
    findService (setStatus st sid status) tid
      = (findService st tid).map (fun s =>
          if s.id = sid then { s with status := status } else s) := by
  unfold findService setStatus
  exact find?_map_id_pres _
    (fun s => by by_cases h : s.id = sid <;> simp [h]) _ _

/-- `addComponent` never changes a service's status, vulnerability
    associations, or `lastScan`. -/
theorem findService_addComponent_proj (st : Store) (sid cid tid : Nat) :
    (findService (addComponent st sid cid) tid).map
        (fun s => (s.status, s.vulnerabilities, s.lastScan))
      = (findService st tid).map
          (fun s => (s.status, s.vulnerabilities, s.lastScan)) := by
  rw [findService_addComponent, Option.map_map]
  cases findService st tid with
  | none => rfl
  | some s =>
    simp only [Option.map_some', Function.comp_apply]
    by_cases h : s.id = sid <;> simp [h]

/-- `processComp` never changes a service's status, vulnerability
    associations, or `lastScan`. -/
theorem findService_processComp_proj (st : Store) (sid : Nat)
    (dc : DetectedComp) (tid : Nat) :
    (findService (processComp st sid dc) tid).map
        (fun s => (s.status, s.vulnerabilities, s.lastScan))
      = (findService st tid).map
          (fun s => (s.status, s.vulnerabilities, s.lastScan)) := by
  unfold processComp
  cases hfc : findComponent st dc.name dc.version with
  | some c => exact findService_addComponent_proj st sid c.id tid
  | none =>
    rw [findService_addComponent_proj]
    rfl

/-- The scan handler's component loop never changes a service's status,
    vulnerability associations, or `lastScan`. -/
theorem findService_scanLoop_proj (d : List DetectedComp) (st : Store)
    (sid tid : Nat) :
    (findService (d.foldl (fun st dc => processComp st sid dc) st) tid).map
        (fun s => (s.status, s.vulnerabilities, s.lastScan))
      = (findService st tid).map
          (fun s => (s.status, s.vulnerabilities, s.lastScan)) := by
  induction d generalizing st with
  | nil => rfl
  | cons dc d ih =>
    rw [List.foldl_cons, ih, findService_processComp_proj]

/-! ## C1: service status versus the invariants I1–I3 -/

/-- Concrete store for the C1 counterexample: service `10` has a stored open
    `critical` vulnerability association and is currently `vulnerable`. -/
def c1store : Store :=
  { components := [],
    services :=
      [ { id := 10, name := "orders-api", components := [],
          vulnerabilities := [ { component := 5, details := some 1 } ],
          status := SStatus.vulnerable, lastScan := some 0 } ],
    vulnerabilities :=
      [ { id := 1, severity := Severity.critical,
          status := VulnStatus.vopen } ],
    notifications := [], reports := [], nextId := 20 }

/-- C1 counterexample: a scan event on a service with a stored open critical
    vulnerability leaves the stored status `'secure'`, while invariants I1–I3
    prescribe `'vulnerable'` from the current associations — the status is
    not a pure function of the current associations. -/
theorem scanStatus_counterexample :
    ((findService (scanService c1store 10 detectedComponents 3) 10).map
      (fun s =>
        (s.status, specStatus (scanService c1store 10 detectedComponents 3) s)))
      = some (SStatus.secure, SStatus.vulnerable)
    ∧ SStatus.secure ≠ SStatus.vulnerable := by
  constructor
  · decide
  · decide

/-- C1 (amended): operations write the status directly instead of recomputing
    it from the associations: a scan sets the scanned service's status to
    `'secure'` unconditionally — whatever vulnerability associations are
    stored, which the scan leaves unchanged. -/
theorem scanService_setsSecure :
    ∀ (st : Store) (sid : Nat) (d : List DetectedComp) (now : Nat),
      (findService st sid).isSome = true →
      (findService (scanService st sid d now) sid).map Service.status
        = some SStatus.secure
      ∧ (findService (scanService st sid d now) sid).map Service.vulnerabilities
        = (findService st sid).map Service.vulnerabilities := by
  intro st sid d now h
  rcases Option.isSome_iff_exists.mp h with ⟨s0, hs0⟩
  unfold scanService
  simp only [hs0]
  have hloop := findService_scanLoop_proj d st sid sid
  rw [hs0] at hloop
  rcases Option.map_eq_some'.mp hloop with ⟨s1, hs1, hproj⟩
  have hid : (s1.id == sid) = true := by
    have hfind := List.find?_some hs1
    simpa using hfind
  have hvuln : s1.vulnerabilities = s0.vulnerabilities := by
    have := congrArg (fun p => p.2.1) hproj
    simpa using this
  rw [findService_setScanned, hs1, Option.map_some',
    if_pos (by simpa using hid)]
  exact ⟨rfl, by simpa using hvuln⟩

/-! ## C5: version-check fan-out -/

/-- `createNotification` does not touch the services. -/
theorem findService_createNotification (st : Store) (n : Notification)
    (tid : Nat) :
    findService (createNotification st n) tid = findService st tid := rfl

/-- The effect of one fan-out iteration on a looked-up service: the status
    becomes `'outdated'` when the iteration's snapshot service was `'secure'`
    and the ids match; nothing else changes. -/
theorem findService_notifyService (c : Component) (latest : String) (now : Nat)
    (st' : Store) (r : Service) (tid : Nat) :
    findService (notifyService c latest now st' r) tid
      = (findService st' tid).map (fun x =>
          if r.status = SStatus.secure ∧ x.id = r.id then
            { x with status := SStatus.outdated }
          else x) := by
  unfold notifyService
  by_cases hr : r.status = SStatus.secure
  · rw [if_pos hr, findService_setStatus, findService_createNotification]
    cases findService st' tid with
    | none => rfl
    | some x =>
      simp only [Option.map_some']
      by_cases hx : x.id = r.id
      · rw [if_pos hx, if_pos ⟨hr, hx⟩]
      · rw [if_neg hx, if_neg (fun h => hx h.2)]
  · rw [if_neg hr, findService_createNotification]
    cases findService st' tid with
    | none => rfl
    | some x =>
      simp only [Option.map_some']
      rw [if_neg (fun h => hr h.1)]

/-- The fan-out fold preserves the id of a looked-up service. -/
theorem findService_foldNotify_proj (c : Component) (latest : String)
    (now : Nat) (l : List Service) (st' : Store) (tid : Nat) :
    (findService (l.foldl (notifyService c latest now) st') tid).map Service.id
      = (findService st' tid).map Service.id := by
  induction l generalizing st' with
  | nil => rfl
  | cons r l ih =>
    rw [List.foldl_cons, ih, findService_notifyService]
    cases findService st' tid with
    | none => rfl
    | some x =>
      simp only [Option.map_some']
      by_cases hc : r.status = SStatus.secure ∧ x.id = r.id
      · rw [if_pos hc]
      · rw [if_neg hc]

/-- Once a looked-up service is `'outdated'`, the rest of the fan-out fold
    keeps it `'outdated'`. -/
theorem foldNotify_preserves_outdated (c : Component) (latest : String)
    (now : Nat) (l : List Service) (st' : Store) (tid : Nat)
    (h : (findService st' tid).map Service.status = some SStatus.outdated) :
    ((findService (l.foldl (notifyService c latest now) st') tid).map
      Service.status) = some SStatus.outdated := by
  induction l generalizing st' with
  | nil => exact h
  | cons r l ih =>
    rw [List.foldl_cons]
    apply ih
    rw [findService_notifyService]
    rcases Option.map_eq_some'.mp h with ⟨x, hx, hstat⟩
    rw [hx, Option.map_some', Option.map_some']
    by_cases hc : r.status = SStatus.secure ∧ x.id = r.id
    · rw [if_pos hc]
    · rw [if_neg hc]
      simpa using hstat

/-- The notification trace of the fan-out fold: one `'update'` notification
    appended per snapshot service, in order. -/
theorem foldNotify_notifications (c : Component) (latest : String) (now : Nat)
    (l : List Service) (st' : Store) :
    ((l.foldl (notifyService c latest now) st').notifications).map
        (fun n => (n.service, n.ntype))
      = st'.notifications.map (fun n => (n.service, n.ntype))
        ++ l.map (fun s => (some s.id, "update")) := by
  induction l generalizing st' with
  | nil => simp
  | cons r l ih =>
    rw [List.foldl_cons, ih]
    have hstep : (notifyService c latest now st' r).notifications
        = st'.notifications ++ [updateNotification st' c latest r.id now] := by
      unfold notifyService
      by_cases hr : r.status = SStatus.secure
      · rw [if_pos hr]
        rfl
      · rw [if_neg hr]
        rfl
    rw [hstep]
    simp [updateNotification]

/-- C5 (amended): only the single-component check-updates path fans out.
    When an update is detected for component `cid`, `checkUpdates` appends
    exactly one `'update'` notification per service referencing `cid` (in
    snapshot order) and moves every snapshot-`'secure'` referencing service
    to `'outdated'`; the batch check-all-updates path persists the component
    fields but creates no notification and leaves every service document
    unchanged. -/
theorem checkUpdates_fanout_amended :
    ∀ (st : Store) (now : Nat),
      ((checkAllUpdates st now).1.services = st.services
        ∧ (checkAllUpdates st now).1.notifications = st.notifications)
      ∧ (∀ (cid : Nat) (c : Component),
          findComponentById st cid = some c →
          isNewerVersion c.version (simulateVersionCheck c.name c.ctype) = true →
          ((checkUpdates st cid now).notifications.map
              (fun n => (n.service, n.ntype))
            = st.notifications.map (fun n => (n.service, n.ntype))
              ++ (st.services.filter (fun s => cid ∈ s.components)).map
                  (fun s => (some s.id, "update")))
          ∧ (∀ (sid : Nat) (s : Service), findService st sid = some s →
              cid ∈ s.components → s.status = SStatus.secure →
              (findService (checkUpdates st cid now) sid).map Service.status
                = some SStatus.outdated)) := by
  intro st now
  constructor
  · have key : ∀ (comps : List Component) (acc : Store × BatchResults),
        ((comps.foldl (checkOneOfAll now) acc).1.services = acc.1.services
        ∧ (comps.foldl (checkOneOfAll now) acc).1.notifications
            = acc.1.notifications) := by
      intro comps
      induction comps with
      | nil => intro acc; exact ⟨rfl, rfl⟩
      | cons x comps ih =>
        intro acc
        rw [List.foldl_cons]
        exact ⟨(ih _).1, (ih _).2⟩
    exact key st.components _
  · intro cid c hc hupd
    have hred : checkUpdates st cid now
        = (st.services.filter (fun s => cid ∈ s.components)).foldl
            (notifyService c (simulateVersionCheck c.name c.ctype) now)
            (setComponentChecked st cid (simulateVersionCheck c.name c.ctype)
              (isNewerVersion c.version (simulateVersionCheck c.name c.ctype))
              now) := by
      unfold checkUpdates
      rw [hc]
      simp only [hupd, if_pos]
      rfl
    constructor
    · rw [hred, foldNotify_notifications]
      rfl
    · intro sid s hs hmem hsec
      rw [hred]
      have hmemf : s ∈ st.services.filter (fun s => cid ∈ s.components) :=
        List.mem_filter.mpr ⟨List.mem_of_find?_eq_some hs, by simpa using hmem⟩
      rcases List.append_of_mem hmemf with ⟨l1, l2, hl⟩
      rw [hl, List.foldl_append, List.foldl_cons]
      apply foldNotify_preserves_outdated
      rw [findService_notifyService]
      have hs1 : findService (setComponentChecked st cid
          (simulateVersionCheck c.name c.ctype)
          (isNewerVersion c.version (simulateVersionCheck c.name c.ctype)) now)
          sid = findService st sid := rfl
      have hproj := findService_foldNotify_proj c
        (simulateVersionCheck c.name c.ctype) now l1
        (setComponentChecked st cid (simulateVersionCheck c.name c.ctype)
          (isNewerVersion c.version (simulateVersionCheck c.name c.ctype)) now)
        sid
      rw [hs1, hs, Option.map_some'] at hproj
      rcases Option.map_eq_some'.mp hproj with ⟨x, hx, hxid⟩
      rw [hx, Option.map_some', Option.map_some']
      rw [if_pos ⟨hsec, hxid⟩]

/-- Concrete store for the C5 counterexample and witness: component
    `Node.js@16.14.0` (id `1`, update to `18.15.0` available) referenced by
    the `'secure'` service `10`. -/
def c5store : Store :=
  { components :=
      [ { id := 1, name := "Node.js", version := "16.14.0",
          ctype := "language", latestVersion := none,
          updateAvailable := false, lastChecked := 0 } ],
    services :=
      [ { id := 10, name := "orders-api", components := [1],
          vulnerabilities := [], status := SStatus.secure,
          lastScan := some 0 } ],
    vulnerabilities := [], notifications := [], reports := [], nextId := 11 }

/-- C5 counterexample: the batch check-all-updates path persists
    `updateAvailable = true` on the component but emits no re-evaluation —
    the referencing `'secure'` service stays `'secure'` and no `'update'`
    notification is created, contradicting the claim for the batch path. -/
theorem checkAllUpdates_no_fanout_counterexample :
    ((findComponentById (checkAllUpdates c5store 0).1 1).map
        Component.updateAvailable = some true)
    ∧ (findService (checkAllUpdates c5store 0).1 10).map Service.status
        = some SStatus.secure
    ∧ (checkAllUpdates c5store 0).1.notifications = [] := by
  refine ⟨by decide, by decide, by decide⟩

/-- Witness for C5 (amended) at `c5store`, component `1`, service `10`. -/
theorem checkUpdates_fanout_amended_witness :
    ((checkAllUpdates c5store 7).1.services = c5store.services
      ∧ (checkAllUpdates c5store 7).1.notifications = c5store.notifications)
    ∧ ((checkUpdates c5store 1 7).notifications.map
          (fun n => (n.service, n.ntype))
        = c5store.notifications.map (fun n => (n.service, n.ntype))
          ++ (c5store.services.filter (fun s => 1 ∈ s.components)).map
              (fun s => (some s.id, "update")))
    ∧ (findService (checkUpdates c5store 1 7) 10).map Service.status
        = some SStatus.outdated := by
  have h := checkUpdates_fanout_amended c5store 7
  have h2 := h.2 1
    { id := 1, name := "Node.js", version := "16.14.0", ctype := "language",
      latestVersion := none, updateAvailable := false, lastChecked := 0 }
    (by decide) (by decide)
  exact ⟨h.1, h2.1, h2.2 10
    { id := 10, name := "orders-api", components := [1],
      vulnerabilities := [], status := SStatus.secure, lastScan := some 0 }
    (by decide) (by decide) (by decide)⟩

/-! ## C7: report summary tally -/

/-- Closed form of the per-service vulnerability tally loop. -/
theorem tallyVuln_fold (st : Store) (l : List VulnAssoc) :
    ∀ sum : Summary,
      l.foldl (tallyVuln st) sum
        = { sum with
            criticalVulnerabilities := sum.criticalVulnerabilities
              + (l.filterMap (resolveVuln st)).countP
                  (fun v => decide (v.severity = Severity.critical)),
            highVulnerabilities := sum.highVulnerabilities
              + (l.filterMap (resolveVuln st)).countP
                  (fun v => decide (v.severity = Severity.high)),
            mediumVulnerabilities := sum.mediumVulnerabilities
              + (l.filterMap (resolveVuln st)).countP
                  (fun v => decide (v.severity = Severity.medium)),
            lowVulnerabilities := sum.lowVulnerabilities
              + (l.filterMap (resolveVuln st)).countP
                  (fun v => decide (v.severity = Severity.low)) } := by
  induction l with
  | nil => intro sum; simp
  | cons a l ih =>
    intro sum
    rw [List.foldl_cons, ih]
    cases hra : resolveVuln st a with
    | none =>
      simp only [tallyVuln, hra, List.filterMap_cons_none hra]
    | some v =>
      cases hv : v.severity <;>
        simp [tallyVuln, hra, hv, List.filterMap_cons_some hra,
          List.countP_cons] <;> omega

/-- Closed form of the per-service tally step. -/
theorem tallyService_closed (st : Store) (s : Service) (sum : Summary) :
    tallyService st sum s
      = { totalServices := sum.totalServices,
          secureServices := sum.secureServices
            + (if s.status = SStatus.secure then 1 else 0),
          vulnerableServices := sum.vulnerableServices
            + (if s.status = SStatus.vulnerable then 1 else 0),
          outdatedServices := sum.outdatedServices
            + (if s.status = SStatus.outdated then 1 else 0),
          criticalVulnerabilities := sum.criticalVulnerabilities
            + (s.vulnerabilities.filterMap (resolveVuln st)).countP
                (fun v => decide (v.severity = Severity.critical)),
          highVulnerabilities := sum.highVulnerabilities
            + (s.vulnerabilities.filterMap (resolveVuln st)).countP
                (fun v => decide (v.severity = Severity.high)),
          mediumVulnerabilities := sum.mediumVulnerabilities
            + (s.vulnerabilities.filterMap (resolveVuln st)).countP
                (fun v => decide (v.severity = Severity.medium)),
          lowVulnerabilities := sum.lowVulnerabilities
            + (s.vulnerabilities.filterMap (resolveVuln st)).countP
                (fun v => decide (v.severity = Severity.low)) } := by
  unfold tallyService
  rw [tallyVuln_fold]
  cases hs : s.status <;> simp [hs]

/-- The per-service severity tally, for the summary characterisation: one
    count per Service-Vulnerability association (a vulnerability shared by
    two services is counted once per service). -/
def sevCount (st : Store) (svcs : List Service) (sev : Severity) : Nat :=
  (svcs.map (fun s => s.vulnerabilities.filterMap (resolveVuln st))).flatten.countP
    (fun v => decide (v.severity = sev))

/-- Closed form of the summary fold. -/
theorem computeSummary_fold (st : Store) (svcs : List Service) :
    ∀ sum : Summary,
      svcs.foldl (tallyService st) sum
        = { totalServices := sum.totalServices,
            secureServices := sum.secureServices
              + svcs.countP (fun s => decide (s.status = SStatus.secure)),
            vulnerableServices := sum.vulnerableServices
              + svcs.countP (fun s => decide (s.status = SStatus.vulnerable)),
            outdatedServices := sum.outdatedServices
              + svcs.countP (fun s => decide (s.status = SStatus.outdated)),
            criticalVulnerabilities := sum.criticalVulnerabilities
              + sevCount st svcs Severity.critical,
            highVulnerabilities := sum.highVulnerabilities
              + sevCount st svcs Severity.high,
            mediumVulnerabilities := sum.mediumVulnerabilities
              + sevCount st svcs Severity.medium,
            lowVulnerabilities := sum.lowVulnerabilities
              + sevCount st svcs Severity.low } := by
  induction svcs with
  | nil => intro sum; simp [sevCount]
  | cons s svcs ih =>
    intro sum
    rw [List.foldl_cons, ih, tallyService_closed]
    simp only [sevCount, List.map_cons, List.flatten_cons, List.countP_cons,
      List.countP_append]
    cases hs : s.status <;> simp [hs, List.countP_cons] <;> omega

/-- Concrete store for the C7 scenario: service `1` is `vulnerable` with two
    critical vulnerability associations, service `2` is `secure`. -/
def c7store : Store :=
  { components := [],
    services :=
      [ { id := 1, name := "a", components := [],
          vulnerabilities :=
            [ { component := 3, details := some 100 },
              { component := 3, details := some 101 } ],
          status := SStatus.vulnerable, lastScan := some 0 },
        { id := 2, name := "b", components := [], vulnerabilities := [],
          status := SStatus.secure, lastScan := some 0 } ],
    vulnerabilities :=
      [ { id := 100, severity := Severity.critical, status := VulnStatus.vopen },
        { id := 101, severity := Severity.critical, status := VulnStatus.vopen } ],
    notifications := [], reports := [], nextId := 200 }

/-- C7: the report summary counts each service once per status and counts
    vulnerabilities by severity over each Service-Vulnerability association
    (so a vulnerability shared by two services counts twice); in the
    two-service scenario the summary has `criticalVulnerabilities = 2` and
    `vulnerableServices = 1`. -/
theorem computeSummary_spec :
    (∀ (st : Store) (svcs : List Service),
      computeSummary st svcs
        = { totalServices := svcs.length,
            secureServices := svcs.countP
              (fun s => decide (s.status = SStatus.secure)),
            vulnerableServices := svcs.countP
              (fun s => decide (s.status = SStatus.vulnerable)),
            outdatedServices := svcs.countP
              (fun s => decide (s.status = SStatus.outdated)),
            criticalVulnerabilities := sevCount st svcs Severity.critical,
            highVulnerabilities := sevCount st svcs Severity.high,
            mediumVulnerabilities := sevCount st svcs Severity.medium,
            lowVulnerabilities := sevCount st svcs Severity.low })
    ∧ ((computeSummary c7store c7store.services).criticalVulnerabilities = 2
      ∧ (computeSummary c7store c7store.services).vulnerableServices = 1
      ∧ (computeSummary c7store c7store.services).secureServices = 1
      ∧ (computeSummary c7store c7store.services).totalServices = 2) := by
  constructor
  · intro st svcs
    unfold computeSummary
    rw [computeSummary_fold]
    simp
  · refine ⟨by decide, by decide, by decide, by decide⟩

/-! ## C6: scan idempotence -/

theorem list_map_self {α : Type} (l : List α) (f : α → α)
    (h : ∀ x ∈ l, f x = x) : l.map f = l :=
  (List.map_congr_left h).trans (List.map_id l)

theorem find?_append_some {α : Type} {p : α → Bool} {l1 : List α}
    (l2 : List α) {a : α} (h : l1.find? p = some a) :
    (l1 ++ l2).find? p = some a := by
  induction l1 with
  | nil => simp [List.find?] at h
  | cons x l1 ih =>
    rw [List.cons_append]
    cases hx : p x with
    | true =>
      rw [List.find?_cons_of_pos _ hx] at h
      rw [List.find?_cons_of_pos _ hx]
      exact h
    | false =>
      rw [List.find?_cons_of_neg _ (by simp [hx])] at h
      rw [List.find?_cons_of_neg _ (by simp [hx])]
      exact ih h

theorem find?_append_none {α : Type} {p : α → Bool} {l1 : List α}
    (l2 : List α) (h : l1.find? p = none) :
    (l1 ++ l2).find? p = l2.find? p := by
  induction l1 with
  | nil => rfl
  | cons x l1 ih =>
    rw [List.cons_append]
    cases hx : p x with
    | true =>
      rw [List.find?_cons_of_pos _ hx] at h
      exact absurd h (by simp)
    | false =>
      rw [List.find?_cons_of_neg _ (by simp [hx])] at h
      rw [List.find?_cons_of_neg _ (by simp [hx])]
      exact ih h

/-- The invariant established by one scan-loop iteration for its discovered
    component: the component exists in the store (first match by
    `(name, version)`) and its id is referenced by every service with the
    scanned id. -/
def scannedP (st : Store) (sid : Nat) (dc : DetectedComp) : Prop :=
  ∃ comp, findComponent st dc.name dc.version = some comp ∧
    ∀ s ∈ st.services, s.id = sid → comp.id ∈ s.components

/-- `$addToSet` on a reference already present everywhere is a no-op. -/
theorem addComponent_id (st : Store) (sid cid : Nat)
    (h : ∀ s ∈ st.services, s.id = sid → cid ∈ s.components) :
    addComponent st sid cid = st := by
  unfold addComponent
  have hmap : st.services.map (fun s =>
      if s.id = sid then
        { s with components :=
            if cid ∈ s.components then s.components
            else s.components ++ [cid] }
      else s) = st.services := by
    apply list_map_self
    intro s hs
    by_cases hid : s.id = sid
    · rw [if_pos hid, if_pos (h s hs hid)]
    · rw [if_neg hid]
  rw [hmap]

/-- `scannedP` is stable under append-only component growth and
    reference-preserving service updates. -/
theorem scannedP_mono (st st' : Store) (sid : Nat) (dc : DetectedComp)
    (hcomp : ∃ ext, st'.components = st.components ++ ext)
    (hsvc : ∀ s' ∈ st'.services, ∃ s, s ∈ st.services ∧ s'.id = s.id ∧
      ∀ x ∈ s.components, x ∈ s'.components)
    (hP : scannedP st sid dc) : scannedP st' sid dc := by
  rcases hP with ⟨comp, hfc, hmem⟩
  rcases hcomp with ⟨ext, hext⟩
  refine ⟨comp, ?_, ?_⟩
  · unfold findComponent at hfc ⊢
    rw [hext]
    exact find?_append_some ext hfc
  · intro s' hs' hid
    rcases hsvc s' hs' with ⟨s, hs, hsid, hsub⟩
    exact hsub _ (hmem s hs (by rw [← hsid, hid]))

theorem addComponent_services_mono (st : Store) (sid cid : Nat) :
    ∀ s' ∈ (addComponent st sid cid).services, ∃ s, s ∈ st.services ∧
      s'.id = s.id ∧ ∀ x ∈ s.components, x ∈ s'.components := by
  intro s' hs'
  simp only [addComponent] at hs'
  rcases List.mem_map.mp hs' with ⟨s, hs, hfs⟩
  refine ⟨s, hs, ?_, ?_⟩
  · rw [← hfs]
    by_cases hid : s.id = sid
    · rw [if_pos hid]
    · rw [if_neg hid]
  · intro x hx
    rw [← hfs]
    by_cases hid : s.id = sid
    · rw [if_pos hid]
      by_cases hmem : cid ∈ s.components
      · simpa [hmem] using hx
      · simp only [if_neg hmem]
        exact List.mem_append_left _ hx
    · rw [if_neg hid]
      exact hx

theorem processComp_components (st : Store) (sid : Nat) (dc : DetectedComp) :
    ∃ ext, (processComp st sid dc).components = st.components ++ ext := by
  unfold processComp
  cases hfc : findComponent st dc.name dc.version with
  | some c => exact ⟨[], by simp [addComponent]⟩
  | none =>
    exact ⟨[{ id := st.nextId, name := dc.name, version := dc.version,
              ctype := dc.ctype, latestVersion := none,
              updateAvailable := false, lastChecked := 0 }], rfl⟩

theorem processComp_services_mono (st : Store) (sid : Nat)
    (dc : DetectedComp) :
    ∀ s' ∈ (processComp st sid dc).services, ∃ s, s ∈ st.services ∧
      s'.id = s.id ∧ ∀ x ∈ s.components, x ∈ s'.components := by
  unfold processComp
  cases hfc : findComponent st dc.name dc.version with
  | some c => exact addComponent_services_mono st sid c.id
  | none =>
    intro s' hs'
    exact addComponent_services_mono _ sid st.nextId s' hs'

/-- One scan-loop iteration establishes its own invariant. -/
theorem processComp_establishes (st : Store) (sid : Nat)
    (dc : DetectedComp) : scannedP (processComp st sid dc) sid dc := by
  unfold processComp
  cases hfc : findComponent st dc.name dc.version with
  | some c =>
    refine ⟨c, hfc, ?_⟩
    intro s' hs' hid
    simp only [addComponent] at hs'
    rcases List.mem_map.mp hs' with ⟨s, hs, hfs⟩
    by_cases hsid : s.id = sid
    · rw [← hfs, if_pos hsid]
      by_cases hmem : c.id ∈ s.components
      · simp [hmem]
      · simp [hmem]
    · rw [← hfs] at hid
      rw [if_neg hsid] at hid
      exact absurd hid hsid
  | none =>
    refine ⟨{ id := st.nextId, name := dc.name, version := dc.version,
              ctype := dc.ctype, latestVersion := none,
              updateAvailable := false, lastChecked := 0 }, ?_, ?_⟩
    · show (st.components ++
          ([{ id := st.nextId, name := dc.name, version := dc.version,
              ctype := dc.ctype, latestVersion := none,
              updateAvailable := false, lastChecked := 0 }] :
            List Component)).find?
            (fun c : Component => c.name == dc.name && c.version == dc.version)
          = some ({ id := st.nextId, name := dc.name, version := dc.version,
                    ctype := dc.ctype, latestVersion := none,
                    updateAvailable := false, lastChecked := 0 } : Component)
      rw [find?_append_none _ hfc]
      simp [List.find?]
    · intro s' hs' hid
      simp only [addComponent] at hs'
      rcases List.mem_map.mp hs' with ⟨s, hs, hfs⟩
      by_cases hsid : s.id = sid
      · rw [← hfs, if_pos hsid]
        by_cases hmem : st.nextId ∈ s.components
        · simp [hmem]
        · simp [hmem]
      · rw [← hfs] at hid
        rw [if_neg hsid] at hid
        exact absurd hid hsid

/-- One scan-loop iteration preserves previously established invariants. -/
theorem processComp_preserves (st : Store) (sid : Nat)
    (dc dc' : DetectedComp) (h : scannedP st sid dc') :
    scannedP (processComp st sid dc) sid dc' :=
  scannedP_mono st _ sid dc' (processComp_components st sid dc)
    (processComp_services_mono st sid dc) h

/-- `setScanned` preserves the invariant. -/
theorem setScanned_preserves (st : Store) (sid now : Nat)
    (dc : DetectedComp) (h : scannedP st sid dc) :
    scannedP (setScanned st sid now) sid dc := by
  apply scannedP_mono st _ sid dc ⟨[], by simp [setScanned]⟩ ?_ h
  intro s' hs'
  simp only [setScanned] at hs'
  rcases List.mem_map.mp hs' with ⟨s, hs, hfs⟩
  refine ⟨s, hs, ?_, ?_⟩
  · rw [← hfs]
    by_cases hid : s.id = sid
    · rw [if_pos hid]
    · rw [if_neg hid]
  · intro x hx
    rw [← hfs]
    by_cases hid : s.id = sid
    · rw [if_pos hid]
      exact hx
    · rw [if_neg hid]
      exact hx

/-- After the scan loop, the invariant holds for every processed discovered
    component. -/
theorem scanLoop_establishes (sid : Nat) :
    ∀ (d : List DetectedComp) (st : Store),
      (∀ dc', scannedP st sid dc' →
        scannedP (d.foldl (fun st dc => processComp st sid dc) st) sid dc')
      ∧ (∀ dc ∈ d,
        scannedP (d.foldl (fun st dc => processComp st sid dc) st) sid dc) := by
  intro d
  induction d with
  | nil => exact fun st => ⟨fun dc' h => h, by simp⟩
  | cons dc d ih =>
    intro st
    constructor
    · intro dc' h
      rw [List.foldl_cons]
      exact (ih _).1 dc' (processComp_preserves st sid dc dc' h)
    · intro dc'' hdc
      rw [List.foldl_cons]
      rcases List.mem_cons.mp hdc with h | h
      · subst h
        exact (ih _).1 dc'' (processComp_establishes st sid dc'')
      · exact (ih _).2 dc'' h

/-- A scan-loop iteration whose invariant already holds is a no-op. -/
theorem processComp_noop (st : Store) (sid : Nat) (dc : DetectedComp)
    (h : scannedP st sid dc) : processComp st sid dc = st := by
  rcases h with ⟨comp, hfc, hmem⟩
  unfold processComp
  rw [hfc]
  exact addComponent_id st sid comp.id hmem

/-- A scan loop over discovered components whose invariants already hold is
    a no-op. -/
theorem scanLoop_noop (sid : Nat) :
    ∀ (d : List DetectedComp) (st : Store),
      (∀ dc ∈ d, scannedP st sid dc) →
      d.foldl (fun st dc => processComp st sid dc) st = st := by
  intro d
  induction d with
  | nil => intro st _; rfl
  | cons dc d ih =>
    intro st h
    rw [List.foldl_cons, processComp_noop st sid dc (h dc (by simp))]
    exact ih st (fun dc' hdc' => h dc' (List.mem_cons_of_mem _ hdc'))

theorem scanService_eq_of_found (st : Store) (sid : Nat)
    (d : List DetectedComp) (now : Nat) (s : Service)
    (h : findService st sid = some s) :
    scanService st sid d now
      = setScanned (d.foldl (fun st dc => processComp st sid dc) st) sid now := by
  unfold scanService
  rw [h]

theorem scanService_eq_of_missing (st : Store) (sid : Nat)
    (d : List DetectedComp) (now : Nat) (h : findService st sid = none) :
    scanService st sid d now = st := by
  unfold scanService
  rw [h]

/-- C6: re-running the scan with an identical discovered-component list is
    idempotent on the component store, on the fresh-id counter, and on every
    service's component-reference list: no duplicate `Component` record and
    no duplicate reference is created. -/
theorem scanService_idempotent :
    ∀ (st : Store) (sid : Nat) (d : List DetectedComp) (now now2 : Nat),
      (scanService (scanService st sid d now) sid d now2).components
        = (scanService st sid d now).components
      ∧ (scanService (scanService st sid d now) sid d now2).nextId
        = (scanService st sid d now).nextId
      ∧ (scanService (scanService st sid d now) sid d now2).services.map
          Service.components
        = (scanService st sid d now).services.map Service.components := by
  intro st sid d now now2
  cases hfs : findService st sid with
  | none =>
    rw [scanService_eq_of_missing st sid d now hfs,
      scanService_eq_of_missing st sid d now2 hfs]
    exact ⟨rfl, rfl, rfl⟩
  | some s0 =>
    have h1 : scanService st sid d now
        = setScanned (d.foldl (fun st dc => processComp st sid dc) st) sid now :=
      scanService_eq_of_found st sid d now s0 hfs
    have hP : ∀ dc ∈ d, scannedP (scanService st sid d now) sid dc := by
      intro dc hdc
      rw [h1]
      exact setScanned_preserves _ sid now dc
        ((scanLoop_establishes sid d st).2 dc hdc)
    have hsome : (findService (scanService st sid d now) sid).isSome = true := by
      rw [h1]
      have hloop := findService_scanLoop_proj d st sid sid
      rw [hfs] at hloop
      rcases Option.map_eq_some'.mp hloop with ⟨s1, hs1, _⟩
      rw [findService_setScanned, hs1]
      rfl
    rcases Option.isSome_iff_exists.mp hsome with ⟨s1, hs1⟩
    have h2 : scanService (scanService st sid d now) sid d now2
        = setScanned (scanService st sid d now) sid now2 := by
      rw [scanService_eq_of_found _ sid d now2 s1 hs1,
        scanLoop_noop sid d _ hP]
    rw [h2]
    refine ⟨rfl, rfl, ?_⟩
    show ((scanService st sid d now).services.map _).map Service.components = _
    rw [List.map_map]
    apply List.map_congr_left
    intro s hs
    by_cases hid : s.id = sid
    · simp [Function.comp, hid]
    · simp [Function.comp, hid]

/-- Witness for C1 (amended) at `c1store`. -/
theorem scanService_setsSecure_witness :
    (findService (scanService c1store 10 detectedComponents 3) 10).map
        Service.status = some SStatus.secure
    ∧ (findService (scanService c1store 10 detectedComponents 3) 10).map
        Service.vulnerabilities
      = (findService c1store 10).map Service.vulnerabilities :=
  scanService_setsSecure c1store 10 detectedComponents 3 (by decide)

end AutoStack
